import Mathlib

/-!
Verification development for the Tankuy live-navigation core.

The definitions below are a shallow embedding of the navigation subsystem:

* the polyline decoder `decodePolyline`, haversine distance
  `getDistanceBetween`, progress tracking `updateNavigationProgressS`,
  and the session lifecycle `startNavigation` / `stopNavigation` /
  `locationCallback` from the find-stations screen;
* the camera controller `offsetCenter`, `getBearing`,
  `getEffectiveHeading`, `handleMapPanDrag`, `animateToLocation` and the
  free-look recenter timer from the native station-map component.

JavaScript numbers are modelled as real numbers (`ℝ`); the integer
bit-twiddling of the polyline codec is modelled with `ℤ`/`ℕ` (the values
reached by the claims stay far below the 32-bit range where JavaScript
bitwise operators would wrap).  Timers are modelled by storing the
scheduled fire time; a timer-fired event is only deliverable while its
deadline is still pending, which is exactly the guarantee `setTimeout` /
`clearTimeout` gives.
-/

namespace Tankuy

open Real

/-! ### Polyline codec (integer core)

`decodePolyline` in the source walks the encoded string with
`charCodeAt`, accumulating 5-bit groups.  We model the string as the
list of its character codes.  `result |= (b & 0x1f) << shift` is written
as addition, which is exact because each group writes a disjoint bit
range; `b & 0x1f` is `b % 32` (the nonnegative residue).  Reading past the end of a JavaScript
string yields `NaN`, and `NaN & 0x1f = 0`, `NaN >= 0x20` is false: the
empty-list case of `readChunk` reproduces exactly that behaviour. -/

/-- One `do { b = encoded.charCodeAt(index++) - 63; result |= (b & 0x1f) << shift;
shift += 5 } while (b >= 0x20)` loop of the source decoder.  Returns the
accumulated result and the unread remainder of the input. -/
def readChunk : List ℕ → ℕ → ℤ → ℤ × List ℕ
  | [], _, result => (result, [])
  | c :: rest, shift, result =>
    let b : ℤ := (c : ℤ) - 63
    let result := result + b % 32 * 2 ^ shift
    if 32 ≤ b then readChunk rest (shift + 5) result else (result, rest)

/-- Zig-zag decoding step of the source: `result & 1 ? ~(result >> 1) : result >> 1`
(for the nonnegative accumulator produced by `readChunk`, `>> 1` is
division by two and `~x` is `-x - 1`). -/
def decodeDelta (r : ℤ) : ℤ :=
  if r % 2 = 1 then -(r / 2) - 1 else r / 2

/-- Outer `while (index < encoded.length)` loop of `decodePolyline`,
decoding one (lat, lng) pair per iteration.  The fuel argument is
instantiated with the input length, which bounds the number of outer
iterations because every iteration consumes at least one character. -/
def decodePolylineAux : ℕ → List ℕ → ℤ → ℤ → List (ℤ × ℤ)
  | 0, _, _, _ => []
  | fuel + 1, l, lat, lng =>
    if l = [] then []
    else
      let p1 := readChunk l 0 0
      let lat2 := lat + decodeDelta p1.1
      let p2 := readChunk p1.2 0 0
      let lng2 := lng + decodeDelta p2.1
      (lat2, lng2) :: decodePolylineAux fuel p2.2 lat2 lng2

/-- Integer core of the source `decodePolyline`: the list of accumulated
scaled coordinates (the source divides each by `1e5` as it pushes). -/
def decodePolylineInts (l : List ℕ) : List (ℤ × ℤ) :=
  decodePolylineAux l.length l 0 0

/-- Source `decodePolyline`: decode the character codes of an encoded
polyline into coordinates, dividing each accumulated integer by `1e5`. -/
noncomputable def decodePolyline (l : List ℕ) : List (ℝ × ℝ) :=
  (decodePolylineInts l).map (fun p => ((p.1 : ℝ) / 100000, (p.2 : ℝ) / 100000))

/-- Modelled from the spec: chunk reader of an error-checking decoder for
which "Malformed input (premature end of string mid-coordinate) fails
with a DecodeError" — running out of characters mid-group yields `none`.
The source decoder has no such error path; this definition exists to
state that divergence. -/
def readChunkE : List ℕ → ℕ → ℤ → Option (ℤ × List ℕ)
  | [], _, _ => none
  | c :: rest, shift, result =>
    let b : ℤ := (c : ℤ) - 63
    let result := result + b % 32 * 2 ^ shift
    if 32 ≤ b then readChunkE rest (shift + 5) result else some (result, rest)

/-- Modelled from the spec: outer loop of the error-checking decoder;
`none` plays the role of the spec's `DecodeError`. -/
def decodeAuxE : ℕ → List ℕ → ℤ → ℤ → Option (List (ℤ × ℤ))
  | 0, l, _, _ => if l = [] then some [] else none
  | fuel + 1, l, lat, lng =>
    if l = [] then some []
    else
      match readChunkE l 0 0 with
      | none => none
      | some p1 =>
        let lat2 := lat + decodeDelta p1.1
        match readChunkE p1.2 0 0 with
        | none => none
        | some p2 =>
          let lng2 := lng + decodeDelta p2.1
          match decodeAuxE fuel p2.2 lat2 lng2 with
          | none => none
          | some ps => some ((lat2, lng2) :: ps)

/-- Modelled from the spec: error-checking polyline decoder, failing with
`none` (the spec's `DecodeError`) on premature end of input
mid-coordinate. -/
def decodePolylineSpecInts (l : List ℕ) : Option (List (ℤ × ℤ)) :=
  decodeAuxE l.length l 0 0

/-- Standard Google polyline encoder (the spec's "standard algorithm"),
chunk emission: `while (v >= 0x20) emit ((0x20 | (v & 0x1f)) + 63); emit (v + 63)`. -/
def encodeUnsigned (v : ℕ) : List ℕ :=
  if v < 32 then [v + 63]
  else (v % 32 + 32 + 63) :: encodeUnsigned (v / 32)
termination_by v
decreasing_by exact Nat.div_lt_self (by omega) (by omega)

/-- Standard zig-zag step of the encoder: left shift, bitwise inversion
when negative (`v < 0 ? ~(v << 1) : v << 1`). -/
def encodeSigned (v : ℤ) : List ℕ :=
  encodeUnsigned (if v < 0 then (-(2 * v) - 1).toNat else (2 * v).toNat)

/-- Standard encoder main loop: delta-encode each scaled coordinate pair
against the previous pair. -/
def encodePolylineAux : List (ℤ × ℤ) → ℤ → ℤ → List ℕ
  | [], _, _ => []
  | p :: rest, plat, plng =>
    encodeSigned (p.1 - plat) ++ encodeSigned (p.2 - plng) ++
      encodePolylineAux rest p.1 p.2

/-- Standard Google polyline encoder over scaled integer coordinates. -/
def encodePolyline (pts : List (ℤ × ℤ)) : List ℕ :=
  encodePolylineAux pts 0 0

/-- Standard Google polyline encoder at fixed precision `1e5`: scale each
coordinate by `1e5`, round to the nearest integer, delta/zig-zag encode. -/
noncomputable def encodeCoords (coords : List (ℝ × ℝ)) : List ℕ :=
  encodePolyline (coords.map (fun p => (round (p.1 * 100000), round (p.2 * 100000))))

/-! ### Geometry -/

/-- Model of JavaScript `Math.atan2` (the source only ever reaches the
`0 < x` branch, since it is applied to `atan2 (sqrt a) (sqrt (1 - a))`
with `a < 1`). -/
noncomputable def atan2 (y x : ℝ) : ℝ :=
  if 0 < x then arctan (y / x)
  else if x < 0 ∧ 0 ≤ y then arctan (y / x) + π
  else if x < 0 then arctan (y / x) - π
  else if 0 < y then π / 2
  else if y < 0 then -(π / 2)
  else 0

/-- Source `getDistanceBetween`: haversine great-circle distance with
Earth radius `6371e3` metres. -/
noncomputable def getDistanceBetween (lat1 lon1 lat2 lon2 : ℝ) : ℝ :=
  let R : ℝ := 6371e3
  let p1 := lat1 * π / 180
  let p2 := lat2 * π / 180
  let dp := (lat2 - lat1) * π / 180
  let dl := (lon2 - lon1) * π / 180
  let a := sin (dp / 2) ^ 2 + cos p1 * cos p2 * sin (dl / 2) ^ 2
  R * 2 * atan2 (sqrt a) (sqrt (1 - a))

/-- Source `getBearing`: great-circle initial bearing between two
coordinates, normalised via `(bearing + 360) % 360` (JavaScript `%` on a
positive dividend is `x - 360 * ⌊x / 360⌋`). -/
noncomputable def getBearing (lat1 lng1 lat2 lng2 : ℝ) : ℝ :=
  let dLng := (lng2 - lng1) * π / 180
  let y := sin dLng * cos (lat2 * π / 180)
  let x := cos (lat1 * π / 180) * sin (lat2 * π / 180) -
    sin (lat1 * π / 180) * cos (lat2 * π / 180) * cos dLng
  let bearing := atan2 y x * 180 / π
  (bearing + 360) - 360 * ((⌊(bearing + 360) / 360⌋ : ℤ) : ℝ)

/-- Source `offsetCenter`: point `offsetMeters` ahead of `(lat, lng)`
along `heading`, via the flat-earth approximation. -/
noncomputable def offsetCenter (lat lng heading offsetMeters : ℝ) : ℝ × ℝ :=
  let headingRad := heading * π / 180
  let earthRadius : ℝ := 6371000
  let dLat := offsetMeters * cos headingRad / earthRadius
  let dLng := offsetMeters * sin headingRad / (earthRadius * cos (lat * π / 180))
  (lat + dLat * 180 / π, lng + dLng * 180 / π)

/-! ### Heading estimator -/

/-- Inner loop of the nearest-route-point scan in `getEffectiveHeading`:
linear scan keeping the first index of strictly smallest squared
degree-space distance. -/
noncomputable def nearestIdxAux (lat lng : ℝ) : List (ℝ × ℝ) → ℕ → ℝ → ℕ → ℕ
  | [], _, _, best => best
  | c :: rest, i, minDist, best =>
    let d := (c.1 - lat) ^ 2 + (c.2 - lng) ^ 2
    if d < minDist then nearestIdxAux lat lng rest (i + 1) d i
    else nearestIdxAux lat lng rest (i + 1) minDist best

/-- Nearest-route-point scan of `getEffectiveHeading`.  The source
initialises `minDist = Infinity`, so the first iteration always replaces
the initial candidate; we fold that first iteration into the
initialisation. -/
noncomputable def nearestIdx (lat lng : ℝ) (route : List (ℝ × ℝ)) : ℕ :=
  match route with
  | [] => 0
  | c :: rest => nearestIdxAux lat lng rest 1 ((c.1 - lat) ^ 2 + (c.2 - lng) ^ 2) 0

/-- Route-bearing fallback of `getEffectiveHeading`: with more than one
route coordinate, bearing from the nearest route point to
`min (nearest + 1) (length - 1)` when that differs from the nearest
index; otherwise the last known heading. -/
noncomputable def routeHeadingFallback (lat lng : ℝ) (routeCoordinates : List (ℝ × ℝ))
    (lastHeading : ℝ) : ℝ :=
  if 1 < routeCoordinates.length then
    let nearest := nearestIdx lat lng routeCoordinates
    let next := min (nearest + 1) (routeCoordinates.length - 1)
    if next ≠ nearest then
      getBearing (routeCoordinates.getD nearest (0, 0)).1
        (routeCoordinates.getD nearest (0, 0)).2
        (routeCoordinates.getD next (0, 0)).1
        (routeCoordinates.getD next (0, 0)).2
    else lastHeading
  else lastHeading

/-- Source `getEffectiveHeading`: a sensor heading that is present and
`≥ 0` is returned directly; otherwise fall back to the route bearing or,
failing that, the last known heading. -/
noncomputable def getEffectiveHeading (lat lng : ℝ) (gpsHeading : Option ℝ)
    (routeCoordinates : List (ℝ × ℝ)) (lastHeading : ℝ) : ℝ :=
  match gpsHeading with
  | some g =>
    if 0 ≤ g then g else routeHeadingFallback lat lng routeCoordinates lastHeading
  | none => routeHeadingFallback lat lng routeCoordinates lastHeading

/-! ### Camera controller -/

/-- One camera-pose animation command handed to the map widget. -/
structure CameraCmd where
  centerLat : ℝ
  centerLng : ℝ
  heading : ℝ
  pitch : ℝ
  zoom : ℝ
  altitude : ℝ
  duration : ℝ

/-- Source `updateNavCamera`: chase camera at the offset center, pitch
`NAV_PITCH = 60`, altitude `NAV_ALTITUDE = 300`, zoom `NAV_ZOOM = 18`. -/
noncomputable def updateNavCameraCmd (lat lng heading duration : ℝ) : CameraCmd :=
  let center := offsetCenter lat lng heading 150
  { centerLat := center.1, centerLng := center.2, heading := heading,
    pitch := 60, zoom := 18, altitude := 300, duration := duration }

/-- Non-navigating branch of `animateToLocation`: plain top-down camera. -/
noncomputable def plainCameraCmd (lat lng : ℝ) : CameraCmd :=
  { centerLat := lat, centerLng := lng, heading := 0,
    pitch := 0, zoom := 15, altitude := 5000, duration := 500 }

/-- State of the native station-map component relevant to the camera
controller: the free-look flag, the pending auto-recenter deadline (the
fire time of the `setTimeout` scheduled by `handleMapPanDrag`), the
`lastHeadingRef` value, and the list of camera commands issued so far
(most recent first). -/
structure MapState where
  isFreeLook : Bool
  freeLookDeadline : Option ℝ
  lastHeading : ℝ
  cameraCmds : List CameraCmd

/-- Source `handleMapPanDrag` at time `t`: outside navigation it returns
immediately; during navigation it enters free look and replaces any
pending recenter timer with one firing at `t + RECENTER_DELAY_MS`
(`RECENTER_DELAY_MS = 5000`). -/
noncomputable def handleMapPanDrag (isNavigating : Bool) (t : ℝ) (st : MapState) :
    MapState :=
  if isNavigating = false then st
  else { st with isFreeLook := true, freeLookDeadline := some (t + 5000) }

/-- Body of the recenter `setTimeout` callback in `handleMapPanDrag`:
leave free look and, when a location fix and the map ref are available,
issue one recenter animation (duration 1000) to the last known position
with the effective heading.  Deliverable only while the deadline is
still pending, which is what `setTimeout`/`clearTimeout` guarantee. -/
noncomputable def freeLookTimerFire (location : Option (ℝ × ℝ)) (userHeading : Option ℝ)
    (routeCoords : List (ℝ × ℝ)) (mapAttached : Bool) (st : MapState) : MapState :=
  let st1 := { st with isFreeLook := false, freeLookDeadline := none }
  match location with
  | some loc =>
    if mapAttached then
      let h := getEffectiveHeading loc.1 loc.2 userHeading routeCoords st.lastHeading
      { st1 with cameraCmds := updateNavCameraCmd loc.1 loc.2 h 1000 :: st.cameraCmds }
    else st1
  | none => st1

/-- Source `animateToLocation` (imperative handle): dropped without a map
ref; during navigation it is a no-op in free look and otherwise issues a
chase-camera command with the effective heading; outside navigation it
issues a plain animation. -/
noncomputable def animateToLocation (isNavigating mapAttached : Bool)
    (routeCoords : List (ℝ × ℝ)) (st : MapState) (lat lng : ℝ)
    (heading : Option ℝ) : MapState :=
  if mapAttached = false then st
  else if isNavigating then
    if st.isFreeLook then st
    else
      let h := getEffectiveHeading lat lng heading routeCoords st.lastHeading
      { st with cameraCmds := updateNavCameraCmd lat lng h 800 :: st.cameraCmds }
  else
    { st with cameraCmds := plainCameraCmd lat lng :: st.cameraCmds }

/-! ### Progress tracker and navigation session -/

/-- One maneuver step of the fetched route (only the fields the progress
tracker reads). -/
structure NavStep where
  distance : ℝ
  duration : ℝ

/-- One sample from the location subscription; heading and speed may be
absent (`null`). -/
structure PositionSample where
  latitude : ℝ
  longitude : ℝ
  heading : Option ℝ
  speed : Option ℝ

/-- The mutable navigation display state written by the progress tracker. -/
structure NavState where
  currentStepIndex : ℕ
  distanceToNextTurn : ℝ
  totalDistanceRemaining : ℝ
  totalTimeRemaining : ℝ

/-- State of the find-stations screen relevant to one navigation session.
`watcherActive` models the live location subscription
(`locationWatcherRef`); `arrivedSignalled` models the arrival alert
having been shown. -/
structure SessionState where
  location : Option PositionSample
  userHeading : ℝ
  isNavigating : Bool
  watcherActive : Bool
  mapState : MapState
  nav : NavState
  arrivedSignalled : Bool

/-- Source `stopNavigation`: clear the navigating flag and remove the
location watcher. -/
def stopNavigation (st : SessionState) : SessionState :=
  { st with isNavigating := false, watcherActive := false }

/-- Source `startNavigation` state initialisation: bail out without a
route; otherwise start navigating, set the index to 0, the totals to the
sums of the steps' distances/durations, and the distance to next turn to
the first step's distance when steps exist. -/
noncomputable def startNavigation (steps : List NavStep) (routeCoords : List (ℝ × ℝ))
    (st : SessionState) : SessionState :=
  if routeCoords.length = 0 then st
  else
    let dtt :=
      match steps with
      | [] => st.nav.distanceToNextTurn
      | s0 :: _ => s0.distance
    let nav2 : NavState :=
      { currentStepIndex := 0
        totalDistanceRemaining := steps.foldl (fun acc s => acc + s.distance) 0
        totalTimeRemaining := steps.foldl (fun acc s => acc + s.duration) 0
        distanceToNextTurn := dtt }
    { st with isNavigating := true, watcherActive := true, nav := nav2 }

/-- Speed used for the ETA estimate: the sample's reported speed when it
is truthy and `> 0`, else the `13.9` m/s fallback. -/
noncomputable def effectiveSpeed : Option ℝ → ℝ
  | none => 13.9
  | some sp => if sp ≠ 0 ∧ 0 < sp then sp else 13.9

/-- Source `updateNavigationProgress`: arrival check against the 50 m
threshold (alert + `stopNavigation`), then replacement of the remaining
distance/time, then the step-advancement heuristic inside the
`setCurrentStepIndex` updater (`setDistanceToNextTurn` runs before the
advancement check, whose branch overwrites it with the next step's full
distance). -/
noncomputable def updateNavigationProgressS (dest : ℝ × ℝ) (steps : List NavStep)
    (routeCoords : List (ℝ × ℝ)) (st : SessionState) (pos : PositionSample) :
    SessionState :=
  let distToDest := getDistanceBetween pos.latitude pos.longitude dest.1 dest.2
  if distToDest < 50 then
    stopNavigation { st with arrivedSignalled := true }
  else
    let speed := effectiveSpeed pos.speed
    let nav1 : NavState :=
      { st.nav with
          totalDistanceRemaining := distToDest
          totalTimeRemaining := distToDest / speed }
    let st1 := { st with nav := nav1 }
    let prevIndex := st1.nav.currentStepIndex
    if prevIndex < steps.length - 1 then
      if 0 < routeCoords.length then
        let totalPlanned := steps.foldl (fun acc s => acc + s.distance) 0
        let cumulativeDist :=
          (steps.take (prevIndex + 1)).foldl (fun acc s => acc + s.distance) 0
        let remainingToStep := max 0 (cumulativeDist - (totalPlanned - distToDest))
        let stepDist := (steps.getD prevIndex ⟨0, 0⟩).distance
        if remainingToStep < 30 ∧ prevIndex < steps.length - 1 then
          let nav2 : NavState :=
            { st1.nav with
                currentStepIndex := prevIndex + 1
                distanceToNextTurn := (steps.getD (prevIndex + 1) ⟨0, 0⟩).distance }
          { st1 with nav := nav2 }
        else
          let dtt := max 0 (stepDist - (stepDist - min remainingToStep stepDist))
          { st1 with nav := { st1.nav with distanceToNextTurn := dtt } }
      else st1
    else st1

/-- Source location-watch callback installed by `startNavigation`: store
the sample, store a present nonnegative sensor heading, forward the
heading to `animateToLocation` through the truthiness guard
`heading && heading >= 0` (which drops a heading of exactly 0), let the
`userHeading` effect refresh `lastHeadingRef`, then update navigation
progress.  The callback itself never checks `isNavigating`. -/
noncomputable def locationCallback (dest : ℝ × ℝ) (steps : List NavStep)
    (routeCoords : List (ℝ × ℝ)) (mapAttached : Bool) (st : SessionState)
    (pos : PositionSample) : SessionState :=
  let st1 := { st with location := some pos }
  let st2 :=
    match pos.heading with
    | some h => if 0 ≤ h then { st1 with userHeading := h } else st1
    | none => st1
  let cameraArg : Option ℝ :=
    match pos.heading with
    | some h => if h ≠ 0 ∧ 0 ≤ h then some h else none
    | none => none
  let ms3 :=
    animateToLocation st2.isNavigating mapAttached routeCoords st2.mapState
      pos.latitude pos.longitude cameraArg
  let st3 := { st2 with mapState := ms3 }
  let st4 :=
    match pos.heading with
    | some h =>
      if 0 ≤ h then { st3 with mapState := { st3.mapState with lastHeading := h } }
      else st3
    | none => st3
  updateNavigationProgressS dest steps routeCoords st4 pos

/-- Delivery of a sample through the location subscription: the removed
watcher (`watcher.remove()` in `stopNavigation`) delivers nothing. -/
noncomputable def watcherDeliver (dest : ℝ × ℝ) (steps : List NavStep)
    (routeCoords : List (ℝ × ℝ)) (mapAttached : Bool) (st : SessionState)
    (pos : PositionSample) : SessionState :=
  if st.watcherActive then locationCallback dest steps routeCoords mapAttached st pos
  else st

/-- A concrete fresh active session state, used to instantiate theorems at
concrete inputs. -/
noncomputable def session0 : SessionState :=
  { location := none
    userHeading := 7
    isNavigating := true
    watcherActive := true
    mapState :=
      { isFreeLook := false
        freeLookDeadline := none
        lastHeading := 123
        cameraCmds := [] }
    nav :=
      { currentStepIndex := 0
        distanceToNextTurn := 100
        totalDistanceRemaining := 5000
        totalTimeRemaining := 360 }
    arrivedSignalled := false }

/-! ### Polyline lemmas -/

theorem encodeUnsigned_ne_nil (v : ℕ) : encodeUnsigned v ≠ [] := by
  rw [encodeUnsigned]
  split <;> simp

theorem readChunk_encodeUnsigned (v : ℕ) (rest : List ℕ) (shift : ℕ) (result : ℤ) :
    readChunk (encodeUnsigned v ++ rest) shift result = (result + v * 2 ^ shift, rest) := by
  induction v using Nat.strong_induction_on generalizing shift result with
  | _ v ih =>
    rw [encodeUnsigned]
    by_cases h : v < 32
    · simp only [if_pos h, List.cons_append, List.nil_append, readChunk]
      have hb : ((v + 63 : ℕ) : ℤ) - 63 = (v : ℤ) := by push_cast; ring
      have hm : ((v : ℤ)) % 32 = (v : ℤ) := by omega
      rw [hb, if_neg (by omega), hm]
    · simp only [if_neg h, List.cons_append, readChunk]
      have hb : ((v % 32 + 32 + 63 : ℕ) : ℤ) - 63 = ((v % 32 : ℕ) : ℤ) + 32 := by
        push_cast; ring
      rw [hb, if_pos (by omega)]
      have hm : (((v % 32 : ℕ) : ℤ) + 32) % 32 = ((v % 32 : ℕ) : ℤ) := by omega
      rw [hm, ih (v / 32) (Nat.div_lt_self (by omega) (by omega))]
      have hv : (v : ℤ) = ((v % 32 : ℕ) : ℤ) + 32 * ((v / 32 : ℕ) : ℤ) := by omega
      rw [hv, pow_add]
      push_cast
      ring_nf

theorem decodeDelta_zigzag (v : ℤ) :
    decodeDelta (((if v < 0 then (-(2 * v) - 1).toNat else (2 * v).toNat : ℕ)) : ℤ) = v := by
  unfold decodeDelta
  split_ifs <;> omega

theorem encodeSigned_ne_nil (v : ℤ) : encodeSigned v ≠ [] := by
  unfold encodeSigned
  exact encodeUnsigned_ne_nil _

theorem decodeAux_encodeAux (pts : List (ℤ × ℤ)) (plat plng : ℤ) (fuel : ℕ)
    (hf : pts.length ≤ fuel) :
    decodePolylineAux fuel (encodePolylineAux pts plat plng) plat plng = pts := by
  induction pts generalizing plat plng fuel with
  | nil => cases fuel <;> simp [encodePolylineAux, decodePolylineAux]
  | cons p rest ih =>
    cases fuel with
    | zero => simp at hf
    | succ f =>
      simp only [encodePolylineAux, decodePolylineAux]
      have hne : encodeSigned (p.1 - plat) ++ encodeSigned (p.2 - plng) ++
          encodePolylineAux rest p.1 p.2 ≠ [] := by
        simp [encodeSigned_ne_nil]
      rw [if_neg hne, List.append_assoc]
      unfold encodeSigned
      rw [readChunk_encodeUnsigned]
      simp only [pow_zero, mul_one, zero_add]
      rw [readChunk_encodeUnsigned]
      simp only [pow_zero, mul_one, zero_add, decodeDelta_zigzag]
      rw [show plat + (p.1 - plat) = p.1 from by ring,
        show plng + (p.2 - plng) = p.2 from by ring,
        ih p.1 p.2 f (by simpa using hf)]

theorem encodePolylineAux_length (pts : List (ℤ × ℤ)) (plat plng : ℤ) :
    pts.length ≤ (encodePolylineAux pts plat plng).length := by
  induction pts generalizing plat plng with
  | nil => simp [encodePolylineAux]
  | cons p rest ih =>
    simp only [encodePolylineAux, List.length_append, List.length_cons]
    have h1 : 0 < (encodeSigned (p.1 - plat)).length :=
      List.length_pos.mpr (encodeSigned_ne_nil _)
    have h2 := ih p.1 p.2
    omega

theorem decodePolylineInts_encodePolyline (pts : List (ℤ × ℤ)) :
    decodePolylineInts (encodePolyline pts) = pts := by
  unfold decodePolylineInts encodePolyline
  exact decodeAux_encodeAux pts 0 0 _ (by simpa using encodePolylineAux_length pts 0 0)

theorem readChunkE_agree (l : List ℕ) : ∀ (shift : ℕ) (result : ℤ) (p : ℤ × List ℕ),
    readChunkE l shift result = some p → readChunk l shift result = p := by
  induction l with
  | nil => intro shift result p h; simp [readChunkE] at h
  | cons c rest ih =>
    intro shift result p h
    simp only [readChunkE] at h
    simp only [readChunk]
    split_ifs at h with hc
    · rw [if_pos hc]
      exact ih _ _ _ h
    · rw [if_neg hc]
      exact (Option.some_inj.mp h)

theorem decodeAuxE_agree (fuel : ℕ) : ∀ (l : List ℕ) (lat lng : ℤ) (pts : List (ℤ × ℤ)),
    decodeAuxE fuel l lat lng = some pts → decodePolylineAux fuel l lat lng = pts := by
  induction fuel with
  | zero =>
    intro l lat lng pts h
    simp only [decodeAuxE] at h
    split_ifs at h with hl
    rw [Option.some_inj] at h
    exact h
  | succ f ih =>
    intro l lat lng pts h
    simp only [decodeAuxE] at h
    simp only [decodePolylineAux]
    split_ifs at h with hl
    · rw [Option.some_inj] at h
      rw [if_pos hl, h]
    · rw [if_neg hl]
      cases hr1 : readChunkE l 0 0 with
      | none => rw [hr1] at h; exact absurd h (by simp)
      | some p1 =>
        rw [hr1] at h
        simp only at h
        rw [readChunkE_agree l 0 0 p1 hr1]
        cases hr2 : readChunkE p1.2 0 0 with
        | none => rw [hr2] at h; exact absurd h (by simp)
        | some p2 =>
          rw [hr2] at h
          simp only at h
          rw [readChunkE_agree p1.2 0 0 p2 hr2]
          cases hr3 : decodeAuxE f p2.2 (lat + decodeDelta p1.1) (lng + decodeDelta p2.1) with
          | none => rw [hr3] at h; exact absurd h (by simp)
          | some ps =>
            rw [hr3, Option.some_inj] at h
            rw [ih p2.2 (lat + decodeDelta p1.1) (lng + decodeDelta p2.1) ps hr3, h]

/-- C7 counterexample: the single-character input `[95]` (a group with its
continuation bit set, so the string ends prematurely mid-coordinate) is
malformed — the spec-modelled error-checking decoder rejects it — yet the
source decoder does not fail: it returns an ordinary one-point list. -/
theorem C7_counterexample :
    decodePolylineSpecInts [95] = none ∧ decodePolylineInts [95] = [(0, 0)] := by
  constructor <;> decide

/-- C7 (amended): the source decoder never signals a `DecodeError`; on every
input accepted by the spec-modelled error-checking decoder it returns
exactly the same points, and on premature end of input it still returns a
plain point list (see the counterexample), so no decode-triggered
external-navigation fallback exists. -/
theorem C7_decode_agreement (l : List ℕ) (pts : List (ℤ × ℤ))
    (h : decodePolylineSpecInts l = some pts) :
    decodePolylineInts l = pts := by
  unfold decodePolylineSpecInts at h
  unfold decodePolylineInts
  exact decodeAuxE_agree l.length l 0 0 pts h

/-- C7 witness: the agreement theorem applied to a concrete well-formed
encoding (two characters, decoding to the single point `(-9, -9)`). -/
theorem C7_decode_agreement_witness :
    decodePolylineInts [80, 80] = [(-9, -9)] :=
  C7_decode_agreement [80, 80] [(-9, -9)] (by decide)

/-- Error bound of rounding a coordinate at precision `1e5`. -/
theorem abs_round_div_sub (x : ℝ) :
    |((round (x * 100000) : ℤ) : ℝ) / 100000 - x| ≤ 1 / 100000 := by
  have h : |((round (x * 100000) : ℤ) : ℝ) - x * 100000| ≤ 1 / 2 := by
    have := abs_sub_round (x * 100000)
    rwa [abs_sub_comm] at this
  have heq : ((round (x * 100000) : ℤ) : ℝ) / 100000 - x
      = (((round (x * 100000) : ℤ) : ℝ) - x * 100000) / 100000 := by ring
  rw [heq, abs_div, abs_of_pos (by norm_num : (0 : ℝ) < 100000)]
  linarith

/-- C6: encoding any geographic coordinate sequence with the standard
Google polyline algorithm at precision `1e5` and decoding it with the
source decoder reproduces the sequence point for point, each component
within `1e-5` degrees. -/
theorem C6_polyline_roundtrip (coords : List (ℝ × ℝ))
    (_hb : ∀ p ∈ coords, |p.1| ≤ 90 ∧ |p.2| ≤ 180) :
    List.Forall₂ (fun q p => |q.1 - p.1| ≤ 1 / 100000 ∧ |q.2 - p.2| ≤ 1 / 100000)
      (decodePolyline (encodeCoords coords)) coords := by
  clear _hb
  unfold decodePolyline encodeCoords
  rw [decodePolylineInts_encodePolyline, List.map_map]
  induction coords with
  | nil => simp
  | cons p rest ih =>
    simp only [List.map_cons, List.forall₂_cons]
    exact ⟨⟨abs_round_div_sub p.1, abs_round_div_sub p.2⟩, ih⟩

/-- C6 witness: the round-trip theorem applied to a concrete coordinate
sequence. -/
theorem C6_polyline_roundtrip_witness :
    List.Forall₂ (fun q p => |q.1 - p.1| ≤ 1 / 100000 ∧ |q.2 - p.2| ≤ 1 / 100000)
      (decodePolyline (encodeCoords [((50.06789 : ℝ), (14.41254 : ℝ)), ((50.1 : ℝ), (14.5 : ℝ))]))
      [((50.06789 : ℝ), (14.41254 : ℝ)), ((50.1 : ℝ), (14.5 : ℝ))] := by
  refine C6_polyline_roundtrip _ ?_
  intro p hp
  rcases List.mem_cons.mp hp with h | h
  · subst h
    constructor <;> rw [abs_of_nonneg (by norm_num)] <;> norm_num
  · rw [List.mem_singleton] at h
    subst h
    constructor <;> rw [abs_of_nonneg (by norm_num)] <;> norm_num

/-! ### Haversine distance along a meridian

For two points on the same longitude the haversine expression collapses
to `R * |Δlat in radians|`, which lets the concrete threshold claims be
settled against bounds on `π`. -/

theorem abs_sin_small (y : ℝ) (h1 : -(π / 2) < y) (h2 : y < π / 2) :
    |Real.sin y| = Real.sin |y| := by
  rcases le_or_lt 0 y with hy | hy
  · rw [abs_of_nonneg hy,
      abs_of_nonneg (Real.sin_nonneg_of_nonneg_of_le_pi hy (by linarith [Real.pi_pos]))]
  · have hs : Real.sin y < 0 := by
      have hp := Real.sin_pos_of_pos_of_lt_pi (show (0 : ℝ) < -y by linarith)
        (show -y < π by linarith [Real.pi_pos])
      rw [Real.sin_neg] at hp
      linarith
    rw [abs_of_neg hy, abs_of_neg hs, Real.sin_neg]

theorem atan2_haversine (y : ℝ) (h1 : -(π / 2) < y) (h2 : y < π / 2) :
    atan2 (sqrt (Real.sin y ^ 2)) (sqrt (1 - Real.sin y ^ 2)) = |y| := by
  have hcos2 : 1 - Real.sin y ^ 2 = Real.cos y ^ 2 := by
    have := Real.sin_sq_add_cos_sq y
    linarith
  have hcp : 0 < Real.cos y := Real.cos_pos_of_mem_Ioo (Set.mem_Ioo.mpr ⟨h1, h2⟩)
  rw [hcos2, Real.sqrt_sq_eq_abs, Real.sqrt_sq_eq_abs, abs_of_pos hcp]
  unfold atan2
  rw [if_pos hcp]
  rw [abs_sin_small y h1 h2, ← Real.cos_abs y, ← Real.tan_eq_sin_div_cos]
  exact Real.arctan_tan (lt_of_lt_of_le (by linarith [Real.pi_pos]) (abs_nonneg y))
    (abs_lt.mpr ⟨h1, h2⟩)

theorem getDistanceBetween_same_lon (lat1 lat2 lon : ℝ) (h : |lat2 - lat1| < 180) :
    getDistanceBetween lat1 lon lat2 lon = 6371000 * (|lat2 - lat1| * π / 180) := by
  have hpi := Real.pi_pos
  obtain ⟨hd1, hd2⟩ := abs_lt.mp h
  have hy1 : -(π / 2) < (lat2 - lat1) * π / 180 / 2 := by nlinarith
  have hy2 : (lat2 - lat1) * π / 180 / 2 < π / 2 := by nlinarith
  have ha : Real.sin ((lat2 - lat1) * π / 180 / 2) ^ 2 +
      Real.cos (lat1 * π / 180) * Real.cos (lat2 * π / 180) *
        Real.sin ((lon - lon) * π / 180 / 2) ^ 2
      = Real.sin ((lat2 - lat1) * π / 180 / 2) ^ 2 := by
    rw [sub_self, zero_mul, zero_div, zero_div, Real.sin_zero]
    ring
  have habs : |(lat2 - lat1) * π / 180 / 2| = |lat2 - lat1| * π / 360 := by
    rw [abs_div, abs_div, abs_mul, abs_of_pos hpi]
    norm_num
    ring
  simp only [getDistanceBetween]
  rw [ha, atan2_haversine _ hy1 hy2, habs]
  norm_num
  ring

theorem dist_50_00044 : getDistanceBetween 50.00044 14 50 14 < 50 := by
  have habs : |(50 : ℝ) - 50.00044| = 0.00044 := by
    rw [abs_sub_comm, abs_of_nonneg (by norm_num : (0 : ℝ) ≤ 50.00044 - 50)]
    norm_num
  rw [getDistanceBetween_same_lon 50.00044 50 14 (by rw [habs]; norm_num), habs]
  nlinarith [Real.pi_lt_d2]

theorem dist_50_0004 : getDistanceBetween 50.0004 14 50 14 < 50 := by
  have habs : |(50 : ℝ) - 50.0004| = 0.0004 := by
    rw [abs_sub_comm, abs_of_nonneg (by norm_num : (0 : ℝ) ≤ 50.0004 - 50)]
    norm_num
  rw [getDistanceBetween_same_lon 50.0004 50 14 (by rw [habs]; norm_num), habs]
  nlinarith [Real.pi_lt_d2]

theorem dist_one_degree : 100000 < getDistanceBetween 50 14 51 14 := by
  have habs : |(51 : ℝ) - 50| = 1 := by norm_num
  rw [getDistanceBetween_same_lon 50 51 14 (by rw [habs]; norm_num), habs]
  nlinarith [Real.pi_gt_three]

/-! ### Progress-tracker lemmas -/

theorem updateNav_near (dest : ℝ × ℝ) (steps : List NavStep) (routeCoords : List (ℝ × ℝ))
    (st : SessionState) (pos : PositionSample)
    (hnear : getDistanceBetween pos.latitude pos.longitude dest.1 dest.2 < 50) :
    updateNavigationProgressS dest steps routeCoords st pos =
      stopNavigation { st with arrivedSignalled := true } := by
  simp only [updateNavigationProgressS]
  rw [if_pos hnear]

theorem updateNav_far_dist (dest : ℝ × ℝ) (steps : List NavStep) (routeCoords : List (ℝ × ℝ))
    (st : SessionState) (pos : PositionSample)
    (hfar : ¬ getDistanceBetween pos.latitude pos.longitude dest.1 dest.2 < 50) :
    (updateNavigationProgressS dest steps routeCoords st pos).nav.totalDistanceRemaining =
      getDistanceBetween pos.latitude pos.longitude dest.1 dest.2 := by
  simp only [updateNavigationProgressS]
  rw [if_neg hfar]
  split_ifs <;> simp

theorem updateNav_far_time (dest : ℝ × ℝ) (steps : List NavStep) (routeCoords : List (ℝ × ℝ))
    (st : SessionState) (pos : PositionSample)
    (hfar : ¬ getDistanceBetween pos.latitude pos.longitude dest.1 dest.2 < 50) :
    (updateNavigationProgressS dest steps routeCoords st pos).nav.totalTimeRemaining =
      getDistanceBetween pos.latitude pos.longitude dest.1 dest.2 / effectiveSpeed pos.speed := by
  simp only [updateNavigationProgressS]
  rw [if_neg hfar]
  split_ifs <;> simp

theorem updateNav_far_flags (dest : ℝ × ℝ) (steps : List NavStep) (routeCoords : List (ℝ × ℝ))
    (st : SessionState) (pos : PositionSample)
    (hfar : ¬ getDistanceBetween pos.latitude pos.longitude dest.1 dest.2 < 50) :
    (updateNavigationProgressS dest steps routeCoords st pos).arrivedSignalled =
      st.arrivedSignalled ∧
    (updateNavigationProgressS dest steps routeCoords st pos).isNavigating = st.isNavigating ∧
    (updateNavigationProgressS dest steps routeCoords st pos).watcherActive = st.watcherActive := by
  simp only [updateNavigationProgressS]
  rw [if_neg hfar]
  split_ifs <;> simp

theorem updateNav_pres_userHeading (dest : ℝ × ℝ) (steps : List NavStep)
    (routeCoords : List (ℝ × ℝ)) (st : SessionState) (pos : PositionSample) :
    (updateNavigationProgressS dest steps routeCoords st pos).userHeading = st.userHeading := by
  simp only [updateNavigationProgressS, stopNavigation]
  split_ifs <;> simp

theorem updateNav_pres_mapState (dest : ℝ × ℝ) (steps : List NavStep)
    (routeCoords : List (ℝ × ℝ)) (st : SessionState) (pos : PositionSample) :
    (updateNavigationProgressS dest steps routeCoords st pos).mapState = st.mapState := by
  simp only [updateNavigationProgressS, stopNavigation]
  split_ifs <;> simp

theorem updateNav_index_step (dest : ℝ × ℝ) (steps : List NavStep)
    (routeCoords : List (ℝ × ℝ)) (st : SessionState) (pos : PositionSample) :
    (updateNavigationProgressS dest steps routeCoords st pos).nav.currentStepIndex =
        st.nav.currentStepIndex ∨
    (updateNavigationProgressS dest steps routeCoords st pos).nav.currentStepIndex =
        st.nav.currentStepIndex + 1 := by
  simp only [updateNavigationProgressS, stopNavigation]
  split_ifs <;> simp

/-- C1 counterexample: the spec's "must NOT trigger arrival" sample at
(50.00044, 14) is in fact only ≈48.93 m from the destination (50, 14) —
below the 50 m threshold — so the source update DOES signal arrival. -/
theorem C1_counterexample :
    getDistanceBetween 50.00044 14 50 14 < 50 ∧
    (updateNavigationProgressS (50, 14) [] [] session0
        ⟨50.00044, 14, none, none⟩).arrivedSignalled = true := by
  refine ⟨dist_50_00044, ?_⟩
  rw [updateNav_near (50, 14) [] [] session0 ⟨50.00044, 14, none, none⟩ dist_50_00044]
  rfl

/-- C1 (amended): while a session is active, every position update computes
the haversine distance (R = 6,371,000 m) to the destination and signals
arrival exactly when that distance is below 50 m, stopping the session
(watcher removed, so the subscription delivers no further updates).  For
destination (50, 14), the sample at (50.00044, 14) is ≈48.93 m away —
below the threshold, so it DOES trigger arrival — and the sample at
(50.0004, 14) (≈44.5 m) triggers it as well. -/
theorem C1_arrival (dest : ℝ × ℝ) (steps : List NavStep) (routeCoords : List (ℝ × ℝ))
    (st : SessionState) (pos : PositionSample)
    (hfresh : st.arrivedSignalled = false) :
    ((updateNavigationProgressS dest steps routeCoords st pos).arrivedSignalled = true ↔
      getDistanceBetween pos.latitude pos.longitude dest.1 dest.2 < 50) ∧
    (getDistanceBetween pos.latitude pos.longitude dest.1 dest.2 < 50 →
      (updateNavigationProgressS dest steps routeCoords st pos).isNavigating = false ∧
      (updateNavigationProgressS dest steps routeCoords st pos).watcherActive = false ∧
      ∀ pos2, watcherDeliver dest steps routeCoords true
          (updateNavigationProgressS dest steps routeCoords st pos) pos2 =
        updateNavigationProgressS dest steps routeCoords st pos) ∧
    getDistanceBetween 50.00044 14 50 14 < 50 ∧
    getDistanceBetween 50.0004 14 50 14 < 50 := by
  refine ⟨?_, ?_, dist_50_00044, dist_50_0004⟩
  · by_cases hd : getDistanceBetween pos.latitude pos.longitude dest.1 dest.2 < 50
    · rw [updateNav_near dest steps routeCoords st pos hd]
      simp [stopNavigation, hd]
    · rw [(updateNav_far_flags dest steps routeCoords st pos hd).1, hfresh]
      simp [hd]
  · intro hd
    rw [updateNav_near dest steps routeCoords st pos hd]
    refine ⟨rfl, rfl, fun pos2 => ?_⟩
    simp [watcherDeliver, stopNavigation]

/-- C1 witness: the amended arrival theorem applied to the concrete fresh
session and the concrete below-threshold sample. -/
theorem C1_arrival_witness :
    (updateNavigationProgressS (50, 14) [] [] session0
        ⟨50.0004, 14, none, none⟩).arrivedSignalled = true :=
  ((C1_arrival (50, 14) [] [] session0 ⟨50.0004, 14, none, none⟩ rfl).1).mpr dist_50_0004

/-- C2: after `startNavigation` initialises the index to 0, every position
update leaves `currentStepIndex` unchanged or advances it by exactly one,
so across any sequence of updates within one session the index is
monotonically non-decreasing and steps are never revisited. -/
theorem C2_monotone (dest : ℝ × ℝ) (steps : List NavStep) (routeCoords : List (ℝ × ℝ))
    (st : SessionState) (pos : PositionSample) (poses : List PositionSample)
    (hroute : ¬ routeCoords.length = 0) :
    (startNavigation steps routeCoords st).nav.currentStepIndex = 0 ∧
    ((updateNavigationProgressS dest steps routeCoords st pos).nav.currentStepIndex =
        st.nav.currentStepIndex ∨
     (updateNavigationProgressS dest steps routeCoords st pos).nav.currentStepIndex =
        st.nav.currentStepIndex + 1) ∧
    st.nav.currentStepIndex ≤
      (poses.foldl (updateNavigationProgressS dest steps routeCoords)
        st).nav.currentStepIndex := by
  refine ⟨?_, updateNav_index_step dest steps routeCoords st pos, ?_⟩
  · simp only [startNavigation]
    rw [if_neg hroute]
  · induction poses generalizing st with
    | nil => simp
    | cons p rest ih =>
      simp only [List.foldl_cons]
      have h1 := updateNav_index_step dest steps routeCoords st p
      have h2 := ih (updateNavigationProgressS dest steps routeCoords st p)
      rcases h1 with h1 | h1 <;> omega

/-- C2 witness: the monotonicity theorem applied at concrete inputs. -/
theorem C2_monotone_witness :
    session0.nav.currentStepIndex ≤
      ([⟨50, 14, none, none⟩].foldl (updateNavigationProgressS (50, 14) [] [(50, 14)])
        session0).nav.currentStepIndex :=
  (C2_monotone (50, 14) [] [(50, 14)] session0 ⟨50, 14, none, none⟩
    [⟨50, 14, none, none⟩] (by simp)).2.2

/-- C4 counterexample: after `stopNavigation`, delivering a queued position
update is NOT a no-op — it overwrites `totalDistanceRemaining` (a
`NavigationState` component) and issues a camera command. -/
theorem C4_counterexample :
    (locationCallback (51, 14) [] [] true (stopNavigation session0)
        ⟨50, 14, none, none⟩).nav.totalDistanceRemaining ≠
      (stopNavigation session0).nav.totalDistanceRemaining ∧
    (locationCallback (51, 14) [] [] true (stopNavigation session0)
        ⟨50, 14, none, none⟩).mapState.cameraCmds.length =
      (stopNavigation session0).mapState.cameraCmds.length + 1 := by
  have hfar : ¬ getDistanceBetween (50 : ℝ) 14 (51 : ℝ) 14 < 50 := by
    intro hlt
    linarith [dist_one_degree]
  constructor
  · simp only [locationCallback]
    rw [updateNav_far_dist]
    · simp only [stopNavigation, session0]
      intro heq
      linarith [dist_one_degree]
    · exact hfar
  · simp only [locationCallback]
    rw [updateNav_pres_mapState]
    simp [animateToLocation, stopNavigation, session0]

/-- C4 (amended): `stopNavigation` removes the location watcher, so the
subscription itself delivers nothing afterwards; but a queued update that
is nevertheless delivered is not a no-op — there is no liveness-flag
guard, so it still overwrites the remaining distance/time in
`NavigationState` and, with the map attached, issues a (non-navigation)
camera command. -/
theorem C4_after_stop (dest : ℝ × ℝ) (steps : List NavStep) (routeCoords : List (ℝ × ℝ))
    (st : SessionState) (pos pos2 : PositionSample)
    (hfar : ¬ getDistanceBetween pos.latitude pos.longitude dest.1 dest.2 < 50) :
    (stopNavigation st).isNavigating = false ∧
    (stopNavigation st).watcherActive = false ∧
    watcherDeliver dest steps routeCoords true (stopNavigation st) pos2 =
      stopNavigation st ∧
    (locationCallback dest steps routeCoords true (stopNavigation st)
        pos).nav.totalDistanceRemaining =
      getDistanceBetween pos.latitude pos.longitude dest.1 dest.2 ∧
    (locationCallback dest steps routeCoords true (stopNavigation st)
        pos).mapState.cameraCmds.length =
      st.mapState.cameraCmds.length + 1 := by
  refine ⟨rfl, rfl, by simp [watcherDeliver, stopNavigation], ?_, ?_⟩
  · cases hph : pos.heading with
    | none =>
      simp only [locationCallback, hph]
      rw [updateNav_far_dist]
      exact hfar
    | some h =>
      simp only [locationCallback, hph]
      split_ifs <;> rw [updateNav_far_dist] <;> exact hfar
  · cases hph : pos.heading with
    | none =>
      simp only [locationCallback, hph]
      rw [updateNav_pres_mapState]
      simp [animateToLocation, stopNavigation]
    | some h =>
      simp only [locationCallback, hph]
      split_ifs <;> rw [updateNav_pres_mapState] <;>
        simp [animateToLocation, stopNavigation]

/-- C4 witness: the after-stop theorem applied at concrete inputs. -/
theorem C4_after_stop_witness :
    (locationCallback (51, 14) [] [] true (stopNavigation session0)
        ⟨50, 14, some 90, some 10⟩).nav.totalDistanceRemaining =
      getDistanceBetween 50 14 51 14 :=
  (C4_after_stop (51, 14) [] [] session0 ⟨50, 14, some 90, some 10⟩ ⟨50, 14, none, none⟩
    (by intro hlt; linarith [dist_one_degree])).2.2.2.1

/-- C8: on every position update that does not trigger arrival the
remaining distance is replaced by the freshly computed distance to the
destination (not decremented), and the remaining time is that distance
divided by the sample's speed when positive, else by the 13.9 m/s
fallback. -/
theorem C8_replace_distance (dest : ℝ × ℝ) (steps : List NavStep)
    (routeCoords : List (ℝ × ℝ)) (st : SessionState) (pos : PositionSample)
    (hfar : ¬ getDistanceBetween pos.latitude pos.longitude dest.1 dest.2 < 50) :
    (updateNavigationProgressS dest steps routeCoords st pos).nav.totalDistanceRemaining =
      getDistanceBetween pos.latitude pos.longitude dest.1 dest.2 ∧
    (updateNavigationProgressS dest steps routeCoords st pos).nav.totalTimeRemaining =
      getDistanceBetween pos.latitude pos.longitude dest.1 dest.2 /
        effectiveSpeed pos.speed ∧
    (∀ sp : ℝ, 0 < sp → effectiveSpeed (some sp) = sp) ∧
    (∀ sp : ℝ, ¬ 0 < sp → effectiveSpeed (some sp) = 13.9) ∧
    effectiveSpeed none = 13.9 := by
  refine ⟨updateNav_far_dist dest steps routeCoords st pos hfar,
    updateNav_far_time dest steps routeCoords st pos hfar, ?_, ?_, rfl⟩
  · intro sp hsp
    simp only [effectiveSpeed]
    rw [if_pos ⟨ne_of_gt hsp, hsp⟩]
  · intro sp hsp
    simp only [effectiveSpeed]
    rw [if_neg (by tauto)]

/-- C8 witness: the replacement theorem applied at a concrete far sample
with a positive reported speed. -/
theorem C8_replace_distance_witness :
    (updateNavigationProgressS (51, 14) [] [] session0
        ⟨50, 14, none, some 20⟩).nav.totalTimeRemaining =
      getDistanceBetween 50 14 51 14 / effectiveSpeed (some 20) :=
  (C8_replace_distance (51, 14) [] [] session0 ⟨50, 14, none, some 20⟩
    (by intro hlt; linarith [dist_one_degree])).2.1

/-! ### Camera controller claims -/

/-- C3: during navigation a pan/drag in Follow mode immediately enters
FreeLook and arms the 5-second idle timer; while FreeLook holds, every
position update leaves the camera (indeed the whole map state) unchanged;
each further pan/drag re-arms the timer to fire 5 s after it; and when
the pending timer fires, the controller returns to Follow and issues
exactly one recenter animation (duration 1000) to the last known position
with the effective heading. -/
theorem C3_freelook (st : MapState) (route : List (ℝ × ℝ)) (uh : Option ℝ)
    (loc : ℝ × ℝ) (t t2 : ℝ) (_hf : st.isFreeLook = false) :
    (handleMapPanDrag true t st).isFreeLook = true ∧
    (handleMapPanDrag true t st).freeLookDeadline = some (t + 5000) ∧
    (∀ (lat lng : ℝ) (hd : Option ℝ),
      animateToLocation true true route (handleMapPanDrag true t st) lat lng hd =
        handleMapPanDrag true t st) ∧
    (handleMapPanDrag true t2 (handleMapPanDrag true t st)).freeLookDeadline =
      some (t2 + 5000) ∧
    freeLookTimerFire (some loc) uh route true (handleMapPanDrag true t st) =
      { handleMapPanDrag true t st with
          isFreeLook := false
          freeLookDeadline := none
          cameraCmds :=
            updateNavCameraCmd loc.1 loc.2
              (getEffectiveHeading loc.1 loc.2 uh route st.lastHeading) 1000
            :: st.cameraCmds } := by
  clear _hf
  refine ⟨rfl, rfl, ?_, rfl, ?_⟩
  · intro lat lng hd
    simp [animateToLocation, handleMapPanDrag]
  · simp [freeLookTimerFire, handleMapPanDrag]

/-- C3 witness: the free-look theorem applied at a concrete map state and
concrete times. -/
theorem C3_freelook_witness :
    (handleMapPanDrag true 0 session0.mapState).isFreeLook = true ∧
    (handleMapPanDrag true 0 session0.mapState).freeLookDeadline = some (0 + 5000) :=
  ⟨(C3_freelook session0.mapState [] none (50, 14) 0 2 rfl).1,
   (C3_freelook session0.mapState [] none (50, 14) 0 2 rfl).2.1⟩

/-- C5: the heading estimator's three-case contract — (a) a present
nonnegative sensor heading is returned unchanged; (b) otherwise, with at
least two route coordinates and the nearest one (first index of smallest
squared degree-space distance) not last, it returns the great-circle
bearing from that nearest point to the following one; (c) with no usable
route, or with the nearest point last, it returns the caller's last known
heading. -/
theorem C5_heading_contract (lat lng g lastH : ℝ) (route : List (ℝ × ℝ))
    (hg : 0 ≤ g) (h2 : 1 < route.length)
    (hnear : nearestIdx lat lng route < route.length - 1) :
    getEffectiveHeading lat lng (some g) route lastH = g ∧
    getEffectiveHeading lat lng none route lastH =
      getBearing (route.getD (nearestIdx lat lng route) (0, 0)).1
        (route.getD (nearestIdx lat lng route) (0, 0)).2
        (route.getD (nearestIdx lat lng route + 1) (0, 0)).1
        (route.getD (nearestIdx lat lng route + 1) (0, 0)).2 ∧
    (∀ route2 : List (ℝ × ℝ), route2.length ≤ 1 →
      getEffectiveHeading lat lng none route2 lastH = lastH) ∧
    (∀ route3 : List (ℝ × ℝ), 1 < route3.length →
      nearestIdx lat lng route3 = route3.length - 1 →
      getEffectiveHeading lat lng none route3 lastH = lastH) := by
  refine ⟨?_, ?_, ?_, ?_⟩
  · simp only [getEffectiveHeading]
    rw [if_pos hg]
  · simp only [getEffectiveHeading, routeHeadingFallback]
    rw [if_pos h2, Nat.min_eq_left (by omega), if_pos (by omega)]
  · intro route2 hlen
    simp only [getEffectiveHeading, routeHeadingFallback]
    rw [if_neg (by omega)]
  · intro route3 hlen3 hlast
    simp only [getEffectiveHeading, routeHeadingFallback]
    rw [if_pos hlen3, hlast, Nat.min_eq_right (by omega), if_neg (by simp)]

/-- C5 witness: the contract applied to the spec's two-point route
`[(50, 14), (50.01, 14)]` from a position near the first point. -/
theorem C5_heading_contract_witness :
    getEffectiveHeading 50.001 14 none [(50, 14), (50.01, 14)] 42 =
      getBearing 50 14 50.01 14 := by
  have hn : nearestIdx 50.001 14 [(50, 14), (50.01, 14)] = 0 := by
    norm_num [nearestIdx, nearestIdxAux]
  have h := (C5_heading_contract 50.001 14 7 42 [(50, 14), (50.01, 14)] (by norm_num)
    (by simp) (by rw [hn]; norm_num)).2.1
  rw [hn] at h
  simpa using h

/-- C9: with heading 90° (due east) and the 150 m forward offset, the
flat-earth offset center keeps the latitude exactly and strictly
increases the longitude, for any origin latitude strictly between -90°
and 90°. -/
theorem C9_offset_east (lat lng : ℝ) (h1 : -90 < lat) (h2 : lat < 90) :
    (offsetCenter lat lng 90 150).1 = lat ∧ lng < (offsetCenter lat lng 90 150).2 := by
  have hpi := Real.pi_pos
  have hrad : (90 : ℝ) * π / 180 = π / 2 := by ring
  have hcos : Real.cos ((90 : ℝ) * π / 180) = 0 := by rw [hrad, Real.cos_pi_div_two]
  have hsin : Real.sin ((90 : ℝ) * π / 180) = 1 := by rw [hrad, Real.sin_pi_div_two]
  have hclat : 0 < Real.cos (lat * π / 180) := by
    apply Real.cos_pos_of_mem_Ioo
    constructor
    · nlinarith [mul_pos (show (0 : ℝ) < lat + 90 by linarith) hpi]
    · nlinarith [mul_pos (show (0 : ℝ) < 90 - lat by linarith) hpi]
  constructor
  · simp only [offsetCenter]
    rw [hcos]
    ring
  · simp only [offsetCenter]
    rw [hsin]
    have hpos : 0 < 150 * 1 / (6371000 * Real.cos (lat * π / 180)) * 180 / π := by
      positivity
    linarith

/-- C9 witness: the offset theorem applied at the concrete origin
(50, 14). -/
theorem C9_offset_east_witness :
    (offsetCenter 50 14 90 150).1 = 50 ∧ (14 : ℝ) < (offsetCenter 50 14 90 150).2 :=
  C9_offset_east 50 14 (by norm_num) (by norm_num)

/-- C10: for a sample whose sensor heading is exactly 0 (due north, a
valid value), the watch callback's truthiness guard `heading && heading >= 0`
passes `undefined` (here `none`) to the map instead of 0 — so the issued
camera command derives its heading from the route bearing or the stale
last known heading (123 here, not 0) — even though the very same sample
updates the stored `userHeading` to 0.  Had the 0 been forwarded,
`animateToLocation` would have issued heading 0, as the last conjunct
shows. -/
theorem C10_zero_heading :
    (locationCallback (51, 14) [] [] true session0
        ⟨50, 14, some 0, none⟩).userHeading = 0 ∧
    (locationCallback (51, 14) [] [] true session0
        ⟨50, 14, some 0, none⟩).mapState.cameraCmds =
      [updateNavCameraCmd 50 14 123 800] ∧
    (updateNavCameraCmd 50 14 123 800).heading = 123 ∧
    (animateToLocation true true [] session0.mapState 50 14 (some 0)).cameraCmds =
      [updateNavCameraCmd 50 14 0 800] := by
  refine ⟨?_, ?_, rfl, ?_⟩
  · simp only [locationCallback]
    rw [updateNav_pres_userHeading]
    simp [session0]
  · simp only [locationCallback]
    rw [updateNav_pres_mapState]
    simp [session0, animateToLocation, getEffectiveHeading, routeHeadingFallback]
  · simp [animateToLocation, session0, getEffectiveHeading]

end Tankuy
